import Mathlib

/-!
Shallow embedding of the omniapy client library (src/omniapy/api.py and
src/omniapy/model.py) and verification of its specification.

Python machine-level details are modelled as follows: `str` becomes `String`
(with UTF-8 encoding made explicit where the source calls `.encode("utf-8")`),
`bytes` become `List Nat` with each element below 256, Python `int` becomes
`Int` (or `Nat` where the source guarantees non-negativity), Python `float`
values that only pass through the program become `Rat`, and `dict`s that the
program builds become association lists preserving insertion order.
-/

namespace Omniapy

/-! ## Bytes and UTF-8 (Python `str.encode("utf-8")`) -/

/-- UTF-8 encoding of a single character, as a list of byte values. -/
def utf8EncodeChar (c : Char) : List Nat :=
  let n := c.toNat
  if n < 0x80 then [n]
  else if n < 0x800 then
    [0xC0 ||| (n >>> 6), 0x80 ||| (n &&& 0x3F)]
  else if n < 0x10000 then
    [0xE0 ||| (n >>> 12), 0x80 ||| ((n >>> 6) &&& 0x3F), 0x80 ||| (n &&& 0x3F)]
  else
    [0xF0 ||| (n >>> 18), 0x80 ||| ((n >>> 12) &&& 0x3F),
     0x80 ||| ((n >>> 6) &&& 0x3F), 0x80 ||| (n &&& 0x3F)]

/-- UTF-8 encoding of a string, the model of Python `s.encode("utf-8")`. -/
def utf8Encode (s : String) : List Nat :=
  (s.data.map utf8EncodeChar).flatten

/-! ## MD5 (Python `hashlib.md5`)

The reference MD5 algorithm over byte lists, with 32-bit words modelled as
`Nat` reduced modulo `2^32`. -/

/-- Reduce a natural number to a 32-bit word. -/
def m32 (x : Nat) : Nat := x % 4294967296

/-- Left-rotation of a 32-bit word by `c` bits. -/
def rotl (x c : Nat) : Nat := m32 ((x <<< c) ||| (x >>> (32 - c)))

/-- Per-round left-rotation amounts of MD5. -/
def md5Shifts : List Nat :=
  [7, 12, 17, 22, 7, 12, 17, 22, 7, 12, 17, 22, 7, 12, 17, 22,
   5, 9, 14, 20, 5, 9, 14, 20, 5, 9, 14, 20, 5, 9, 14, 20,
   4, 11, 16, 23, 4, 11, 16, 23, 4, 11, 16, 23, 4, 11, 16, 23,
   6, 10, 15, 21, 6, 10, 15, 21, 6, 10, 15, 21, 6, 10, 15, 21]

/-- Per-round additive constants of MD5 (the integer parts of
`2^32 * |sin(i+1)|`). -/
def md5Consts : List Nat :=
  [0xd76aa478, 0xe8c7b756, 0x242070db, 0xc1bdceee,
   0xf57c0faf, 0x4787c62a, 0xa8304613, 0xfd469501,
   0x698098d8, 0x8b44f7af, 0xffff5bb1, 0x895cd7be,
   0x6b901122, 0xfd987193, 0xa679438e, 0x49b40821,
   0xf61e2562, 0xc040b340, 0x265e5a51, 0xe9b6c7aa,
   0xd62f105d, 0x02441453, 0xd8a1e681, 0xe7d3fbc8,
   0x21e1cde6, 0xc33707d6, 0xf4d50d87, 0x455a14ed,
   0xa9e3e905, 0xfcefa3f8, 0x676f02d9, 0x8d2a4c8a,
   0xfffa3942, 0x8771f681, 0x6d9d6122, 0xfde5380c,
   0xa4beea44, 0x4bdecfa9, 0xf6bb4b60, 0xbebfbc70,
   0x289b7ec6, 0xeaa127fa, 0xd4ef3085, 0x04881d05,
   0xd9d4d039, 0xe6db99e5, 0x1fa27cf8, 0xc4ac5665,
   0xf4292244, 0x432aff97, 0xab9423a7, 0xfc93a039,
   0x655b59c3, 0x8f0ccc92, 0xffeff47d, 0x85845dd1,
   0x6fa87e4f, 0xfe2ce6e0, 0xa3014314, 0x4e0811a1,
   0xf7537e82, 0xbd3af235, 0x2ad7d2bb, 0xeb86d391]

/-- Little-endian interpretation of a list of bytes as a natural number. -/
def leWord (bs : List Nat) : Nat :=
  bs.reverse.foldl (fun acc b => acc * 256 + b) 0

/-- The `k` least significant bytes of `n`, little-endian. -/
def leBytes (k n : Nat) : List Nat :=
  (List.range k).map (fun i => (n >>> (8 * i)) % 256)

/-- MD5 padding: append the `0x80` byte, zero bytes up to 56 mod 64, and the
message bit length as eight little-endian bytes. -/
def md5Pad (msg : List Nat) : List Nat :=
  let zeros := (56 + 64 - (msg.length + 1) % 64) % 64
  msg ++ [0x80] ++ List.replicate zeros 0 ++ leBytes 8 (msg.length * 8)

/-- Split a byte list into 64-byte chunks. -/
def toChunksAux : Nat → List Nat → List (List Nat)
  | 0, _ => []
  | _, [] => []
  | fuel + 1, b :: rest => ((b :: rest).take 64) :: toChunksAux fuel ((b :: rest).drop 64)

/-- Split a byte list into 64-byte chunks (the fuel argument only drives the
structural recursion; the list length always suffices). -/
def toChunks (l : List Nat) : List (List Nat) := toChunksAux l.length l

/-- One of the 64 MD5 rounds on the state `(a, b, c, d)`, using the message
words `M` of the current chunk. -/
def md5Step (M : List Nat) (i : Nat) : Nat × Nat × Nat × Nat → Nat × Nat × Nat × Nat
  | (a, b, c, d) =>
    let mask := 4294967295
    let fg : Nat × Nat :=
      if i < 16 then ((b &&& c) ||| ((b ^^^ mask) &&& d), i)
      else if i < 32 then ((d &&& b) ||| ((d ^^^ mask) &&& c), (5 * i + 1) % 16)
      else if i < 48 then (b ^^^ c ^^^ d, (3 * i + 5) % 16)
      else (c ^^^ (b ||| (d ^^^ mask)), (7 * i) % 16)
    let fv := m32 (fg.1 + a + md5Consts.getD i 0 + M.getD fg.2 0)
    (d, m32 (b + rotl fv (md5Shifts.getD i 0)), b, c)

/-- Process one 64-byte chunk, updating the running MD5 state. -/
def md5ProcessChunk (st : Nat × Nat × Nat × Nat) (chunk : List Nat) :
    Nat × Nat × Nat × Nat :=
  let M := (List.range 16).map (fun j => leWord ((chunk.drop (4 * j)).take 4))
  let r := (List.range 64).foldl (fun s i => md5Step M i s) st
  (m32 (st.1 + r.1), m32 (st.2.1 + r.2.1), m32 (st.2.2.1 + r.2.2.1),
   m32 (st.2.2.2 + r.2.2.2))

/-- The MD5 digest of a byte list, as the 16 digest bytes. -/
def md5Bytes (msg : List Nat) : List Nat :=
  let st := (toChunks (md5Pad msg)).foldl md5ProcessChunk
    (0x67452301, 0xefcdab89, 0x98badcfe, 0x10325476)
  leBytes 4 st.1 ++ leBytes 4 st.2.1 ++ leBytes 4 st.2.2.1 ++ leBytes 4 st.2.2.2

/-- A lowercase hexadecimal digit. -/
def hexDigit (n : Nat) : Char :=
  if n < 10 then Char.ofNat (48 + n) else Char.ofNat (87 + n)

/-- Two lowercase hexadecimal digits of one byte. -/
def byteToHex (b : Nat) : List Char :=
  [hexDigit (b / 16), hexDigit (b % 16)]

/-- Lowercase hexadecimal rendering of an MD5 digest of a byte list, the model
of Python `hashlib.md5(bytes).hexdigest()`. -/
def md5Hex (msg : List Nat) : String :=
  ⟨((md5Bytes msg).map byteToHex).flatten⟩

/-! ## Request header (`Omnia.__request_header`, api.py lines 164-176) -/

/-- Constant `BASE_URL` of api.py. -/
def BASE_URL : String := "https://api.nexx.cloud/v3.1/"

/-- Constant `OMNIA_HEADER_X_REQUEST_CID` of api.py. -/
def OMNIA_HEADER_X_REQUEST_CID : String := "X-Request-CID"

/-- Constant `OMNIA_HEADER_X_REQUEST_TOKEN` of api.py. -/
def OMNIA_HEADER_X_REQUEST_TOKEN : String := "X-Request-Token"

/-- Model of `Omnia.__request_header`: the two headers sent with every call.
The source computes `hashlib.md5(f"{operation}{domain_id}{api_secret}".encode("utf-8"))`
and pairs its hex digest with the unchanged session id. -/
def request_header (operation domain_id api_secret session_id : String) :
    List (String × String) :=
  let signature := md5Hex (utf8Encode (operation ++ domain_id ++ api_secret))
  [(OMNIA_HEADER_X_REQUEST_CID, session_id),
   (OMNIA_HEADER_X_REQUEST_TOKEN, signature)]

/-! ## Enumerations (model.py) -/

/-- Model of `StreamType` (model.py lines 25-32). -/
inductive StreamType where
  | All
  | Video
  | Audio
  | Show
  | Radio
  | Live
deriving DecidableEq

/-- The string value of each `StreamType` member (the members are named ALL,
VIDEO, AUDIO, SHOW, RADIO, LIVE in the source). -/
def StreamType.value : StreamType → String
  | .All => "allmedia"
  | .Video => "videos"
  | .Audio => "audio"
  | .Show => "shows"
  | .Radio => "radio"
  | .Live => "live"

/-- Model of `ApiType` (model.py lines 35-40). -/
inductive ApiType where
  | MEDIA
  | MANAGEMENT
  | UPLOAD_LINK_MANAGEMENT
  | SYSTEM
  | DOMAIN
deriving DecidableEq

/-! ## URL building (`Omnia.__url_builder` and `Omnia.__universal_call`) -/

/-- Model of Python `s.lstrip("/")`: drop every leading `'/'`. -/
def pyLstripSlash (s : String) : String :=
  ⟨s.data.dropWhile (· == '/')⟩

/-- Model of Python `s.rstrip("/")`: drop every trailing `'/'`. -/
def pyRstripSlash (s : String) : String :=
  ⟨(s.data.reverse.dropWhile (· == '/')).reverse⟩

/-- Model of `str(arg).lstrip("/").rstrip("/")` applied to each segment in
`Omnia.__url_builder` (api.py line 182). -/
def stripSegment (s : String) : String :=
  pyRstripSlash (pyLstripSlash s)

/-- Model of Python `sep.join(parts)`. -/
def pyJoin (sep : String) : List String → String
  | [] => ""
  | [x] => x
  | x :: y :: rest => x ++ sep ++ pyJoin sep (y :: rest)

/-- Model of `Omnia.__url_builder` (api.py lines 178-183): strip each segment
of leading and trailing `'/'` and join the results with `'/'`. -/
def url_builder (segments : List String) : String :=
  pyJoin "/" (segments.map stripSegment)

/-- The URL computed by `Omnia.__universal_call` (api.py lines 138-151):
the positional arguments are joined with `'/'` into `args_str`, then the URL
shape is selected by the `ApiType`; a `DOMAIN` call matches no branch and
leaves the initial empty URL. -/
def universal_call_url (api_type : ApiType) (domain_id : String)
    (stream_type : StreamType) (operation : String) (args : List String) :
    String :=
  let args_str := pyJoin "/" args
  match api_type with
  | .MEDIA =>
      url_builder [BASE_URL, domain_id, stream_type.value, operation, args_str]
  | .MANAGEMENT =>
      url_builder [BASE_URL, domain_id, "manage", stream_type.value, args_str, operation]
  | .UPLOAD_LINK_MANAGEMENT =>
      url_builder [BASE_URL, domain_id, "manage", "uploadlinks", operation]
  | .SYSTEM =>
      url_builder [BASE_URL, domain_id, "system", operation, args_str]
  | .DOMAIN => ""

/-! ## High-level operations' URL and body shapes (api.py) -/

/-- A value in an outgoing Python request dictionary: the source stores
strings and integers there, and `useQueue` could in principle have been a
native boolean, so the model distinguishes all three. -/
inductive PyValue where
  | str (s : String)
  | int (n : Int)
  | bool (b : Bool)
deriving DecidableEq

/-- Model of the body built by `Omnia.upload_by_url` (api.py lines 75-80):
`{"url": url, "useQueue": 1 if use_queue else 0}`, then
`if filename: data["filename"] = filename`. Python's `if filename:` is a
truthiness test, so `None` and the empty string both skip the assignment. -/
def upload_by_url_body (url : String) (use_queue : Bool)
    (filename : Option String) : List (String × PyValue) :=
  let data := [("url", PyValue.str url),
               ("useQueue", PyValue.int (if use_queue then 1 else 0))]
  match filename with
  | some f => if f = "" then data else data ++ [("filename", PyValue.str f)]
  | none => data

/-! ## JSON values and decoding (model.py, pydantic models)

JSON numbers are modelled as rationals: Python `int` fields accept exactly
the integral numbers, `float` fields any number. Decoding a pydantic model
from a parsed JSON value either succeeds or raises a validation error, which
the spec calls `DecodeError`. -/

/-- A parsed JSON value. -/
inductive Json where
  | null
  | bool (b : Bool)
  | num (q : Rat)
  | str (s : String)
  | arr (elements : List Json)
  | obj (fields : List (String × Json))

/-- A decoding failure: a required field is missing, or a value does not have
the shape its field requires. -/
inductive DecodeError where
  | missing
  | wrongType
deriving DecidableEq

/-- Look a field up in a JSON object under a list of acceptable key names,
in priority order. Pydantic looks the wire alias up first and, for models
configured with `populate_by_name`, falls back to the semantic field name. -/
def lookupKeys (fs : List (String × Json)) : List String → Option Json
  | [] => none
  | k :: ks =>
    match fs.lookup k with
    | some v => some v
    | none => lookupKeys fs ks

/-- Decode an `int`-typed field: exactly the integral JSON numbers. -/
def decInt : Json → Except DecodeError Int
  | .num q => if q.den = 1 then .ok q.num else .error .wrongType
  | _ => .error .wrongType

/-- Decode a `str`-typed field. -/
def decStr : Json → Except DecodeError String
  | .str s => .ok s
  | _ => .error .wrongType

/-- Decode a `float`-typed field: any JSON number. -/
def decFloat : Json → Except DecodeError Rat
  | .num q => .ok q
  | _ => .error .wrongType

/-- Decode a `datetime`-typed field, modelled as its numeric epoch value. -/
def decDatetime : Json → Except DecodeError Rat
  | .num q => .ok q
  | _ => .error .wrongType

/-- Model of the `Bool` enumeration of model.py (lines 9-22): 0 is false and
1 is true. Named `OBool` because `Bool` is taken in Lean. -/
inductive OBool where
  | FALSE
  | TRUE
deriving DecidableEq

/-- Model of `Bool.to_bool` (model.py lines 19-22). -/
def OBool.to_bool : OBool → Bool
  | .FALSE => false
  | .TRUE => true

/-- Decode a `Bool`-enum-typed field: the JSON numbers 0 and 1. -/
def decOBool : Json → Except DecodeError OBool
  | .num q =>
    if q = 0 then .ok .FALSE
    else if q = 1 then .ok .TRUE
    else .error .wrongType
  | _ => .error .wrongType

/-- Decode an `Optional[...]` field that is present: JSON `null` becomes
`none`, anything else must satisfy the underlying decoder. -/
def decOpt (dec : Json → Except DecodeError α) : Json → Except DecodeError (Option α)
  | .null => .ok none
  | v => (dec v).map some

/-- Decode a required field of a JSON object: missing is an error. -/
def reqField (fs : List (String × Json)) (keys : List String)
    (dec : Json → Except DecodeError α) : Except DecodeError α :=
  match lookupKeys fs keys with
  | none => .error .missing
  | some v => dec v

/-- Decode an optional field of a JSON object: missing decodes to `none`. -/
def optField (fs : List (String × Json)) (keys : List String)
    (dec : Json → Except DecodeError α) : Except DecodeError (Option α) :=
  match lookupKeys fs keys with
  | none => .ok none
  | some v => decOpt dec v

/-! ## ResponseMetadata (model.py lines 43-73) -/

/-- Model of `ResponseMetadata`. `processing_time` is declared
`float = Field(alias="processingtime")` in the source, with no default. -/
structure ResponseMetadata where
  status : Int
  api_version : Option String
  verb : String
  processing_time : Rat
  called_with : Option String
  called_for : Option String
  for_domain : Option Int
  from_stage : Option Int
  notice : Option String
  error_hint : Option String
  from_cache : Option Int
deriving DecidableEq

/-- Decoder of `ResponseMetadata`: aliases per the `Field(..., alias=...)`
declarations, with the semantic names also accepted because the model sets
`populate_by_name = True`. -/
def decodeResponseMetadata : Json → Except DecodeError ResponseMetadata
  | .obj fs => do
    let status ← reqField fs ["status"] decInt
    let api_version ← optField fs ["apiversion", "api_version"] decStr
    let verb ← reqField fs ["verb"] decStr
    let processing_time ← reqField fs ["processingtime", "processing_time"] decFloat
    let called_with ← optField fs ["calledwith", "called_with"] decStr
    let called_for ← optField fs ["calledfor", "called_for"] decStr
    let for_domain ← optField fs ["fordomain", "for_domain"] decInt
    let from_stage ← optField fs ["fromstage", "from_stage"] decInt
    let notice ← optField fs ["notice"] decStr
    let error_hint ← optField fs ["errorhint", "error_hint"] decStr
    let from_cache ← optField fs ["fromcache", "from_cache"] decInt
    .ok ⟨status, api_version, verb, processing_time, called_with, called_for,
         for_domain, from_stage, notice, error_hint, from_cache⟩
  | _ => .error .wrongType

/-! ## ResponsePaging (model.py lines 76-87) -/

/-- Model of `ResponsePaging`. -/
structure ResponsePaging where
  start : Int
  limit : Int
  result_count : Int
deriving DecidableEq

/-- Decoder of `ResponsePaging` (aliases plus `populate_by_name`). -/
def decodeResponsePaging : Json → Except DecodeError ResponsePaging
  | .obj fs => do
    let start ← reqField fs ["start"] decInt
    let limit ← reqField fs ["limit"] decInt
    let result_count ← reqField fs ["resultcount", "result_count"] decInt
    .ok ⟨start, limit, result_count⟩
  | _ => .error .wrongType

/-! ## MediaResultGeneral and MediaResultItem (model.py lines 90-127) -/

/-- Model of `MediaResultGeneral`. `datetime` fields are modelled by their
numeric epoch value. -/
structure MediaResultGeneral where
  item_id : Int
  gid : Int
  hash_value : String
  title : String
  subtitle : String
  genre_raw : Option String
  genre : Option String
  content_moderation_aspects : String
  uploaded : Option Rat
  created : Rat
  audio_type : Option String
  runtime : Option String
  is_picked : Option OBool
  for_kids : Option OBool
  is_pay : OBool
  is_ugc : Option OBool
deriving DecidableEq

/-- Decoder of `MediaResultGeneral`: this model does not set
`populate_by_name`, so only the wire aliases are accepted. -/
def decodeMediaResultGeneral : Json → Except DecodeError MediaResultGeneral
  | .obj fs => do
    let item_id ← reqField fs ["ID"] decInt
    let gid ← reqField fs ["GID"] decInt
    let hash_value ← reqField fs ["hash"] decStr
    let title ← reqField fs ["title"] decStr
    let subtitle ← reqField fs ["subtitle"] decStr
    let genre_raw ← optField fs ["genre_raw"] decStr
    let genre ← optField fs ["genre"] decStr
    let content_moderation_aspects ← reqField fs ["contentModerationAspects"] decStr
    let uploaded ← optField fs ["uploaded"] decDatetime
    let created ← reqField fs ["created"] decDatetime
    let audio_type ← optField fs ["audiotype"] decStr
    let runtime ← optField fs ["runtime"] decStr
    let is_picked ← optField fs ["isPicked"] decOBool
    let for_kids ← optField fs ["forKids"] decOBool
    let is_pay ← reqField fs ["isPay"] decOBool
    let is_ugc ← optField fs ["isUGC"] decOBool
    .ok ⟨item_id, gid, hash_value, title, subtitle, genre_raw, genre,
         content_moderation_aspects, uploaded, created, audio_type, runtime,
         is_picked, for_kids, is_pay, is_ugc⟩
  | _ => .error .wrongType

/-- Model of `MediaResultItem`: `general` plus the explicitly untyped
`image_data` blob, kept as an opaque JSON value. -/
structure MediaResultItem where
  general : MediaResultGeneral
  image_data : Json

/-- Decoder of `MediaResultItem`. Both fields are required (`image_data` is
declared `Any = Field(alias="imagedata")` with no default); the blob is
accepted as-is. -/
def decodeMediaResultItem : Json → Except DecodeError MediaResultItem
  | .obj fs => do
    let general ← reqField fs ["general"] decodeMediaResultGeneral
    let image_data ← reqField fs ["imagedata"] (fun v => .ok v)
    .ok ⟨general, image_data⟩
  | _ => .error .wrongType

/-! ## EditableAttributes (model.py lines 139-156) -/

/-- Model of `EditableAttributesProperties`. -/
structure EditableAttributesProperties where
  attrib_type : String
  max_length : Option Int
  attrib_format : Option String
  hint : Option String
  allowed_in_ugc : OBool
deriving DecidableEq

/-- Decoder of `EditableAttributesProperties` (aliases only; `hint` has no
alias so its own name is the wire name). -/
def decodeEditableAttributesProperties : Json → Except DecodeError EditableAttributesProperties
  | .obj fs => do
    let attrib_type ← reqField fs ["type"] decStr
    let max_length ← optField fs ["maxlength"] decInt
    let attrib_format ← optField fs ["format"] decStr
    let hint ← optField fs ["hint"] decStr
    let allowed_in_ugc ← reqField fs ["allowedInUGC"] decOBool
    .ok ⟨attrib_type, max_length, attrib_format, hint, allowed_in_ugc⟩
  | _ => .error .wrongType

/-- Decoder of `EditableAttributesResponse`, the root model mapping attribute
names to their editable properties, kept as an association list. -/
def decodeEditableAttributesResponse :
    Json → Except DecodeError (List (String × EditableAttributesProperties))
  | .obj fs =>
    fs.mapM (fun p => (decodeEditableAttributesProperties p.2).map (fun v => (p.1, v)))
  | _ => .error .wrongType

/-! ## The generic response envelope (model.py lines 162-170) -/

/-- Model of `Response[T]`: the envelope of every API response. -/
structure Response (α : Type) where
  metadata : ResponseMetadata
  result : Option α
  paging : Option ResponsePaging

/-- Decoder of `Response[T]`, parameterized by the payload decoder. The
field names are the wire names (no aliases on this model). -/
def decodeResponse (dec : Json → Except DecodeError α) :
    Json → Except DecodeError (Response α)
  | .obj fs => do
    let metadata ← reqField fs ["metadata"] decodeResponseMetadata
    let result ← optField fs ["result"] dec
    let paging ← optField fs ["paging"] decodeResponsePaging
    .ok ⟨metadata, result, paging⟩
  | _ => .error .wrongType

/-! ## Encoding (pydantic `model_dump(by_alias=True)`)

Serialization writes every field under its wire alias, rendering an unset
optional field as JSON `null`. -/

/-- Encode an optional field value: `none` serializes as `null`. -/
def encOpt (enc : α → Json) : Option α → Json
  | none => .null
  | some a => enc a

/-- Encode a `Bool`-enum value as its integer wire form. -/
def encOBool : OBool → Json
  | .FALSE => .num 0
  | .TRUE => .num 1

/-- Encoder of `ResponseMetadata` under its wire aliases. -/
def encodeResponseMetadata (m : ResponseMetadata) : Json :=
  .obj [("status", .num m.status),
        ("apiversion", encOpt Json.str m.api_version),
        ("verb", .str m.verb),
        ("processingtime", .num m.processing_time),
        ("calledwith", encOpt Json.str m.called_with),
        ("calledfor", encOpt Json.str m.called_for),
        ("fordomain", encOpt (fun n : Int => Json.num (n : Rat)) m.for_domain),
        ("fromstage", encOpt (fun n : Int => Json.num (n : Rat)) m.from_stage),
        ("notice", encOpt Json.str m.notice),
        ("errorhint", encOpt Json.str m.error_hint),
        ("fromcache", encOpt (fun n : Int => Json.num (n : Rat)) m.from_cache)]

/-- Encoder of `ResponsePaging` under its wire aliases. -/
def encodeResponsePaging (p : ResponsePaging) : Json :=
  .obj [("start", .num p.start),
        ("limit", .num p.limit),
        ("resultcount", .num p.result_count)]

/-- Encoder of `MediaResultGeneral` under its wire aliases. -/
def encodeMediaResultGeneral (g : MediaResultGeneral) : Json :=
  .obj [("ID", .num g.item_id),
        ("GID", .num g.gid),
        ("hash", .str g.hash_value),
        ("title", .str g.title),
        ("subtitle", .str g.subtitle),
        ("genre_raw", encOpt Json.str g.genre_raw),
        ("genre", encOpt Json.str g.genre),
        ("contentModerationAspects", .str g.content_moderation_aspects),
        ("uploaded", encOpt Json.num g.uploaded),
        ("created", .num g.created),
        ("audiotype", encOpt Json.str g.audio_type),
        ("runtime", encOpt Json.str g.runtime),
        ("isPicked", encOpt encOBool g.is_picked),
        ("forKids", encOpt encOBool g.for_kids),
        ("isPay", encOBool g.is_pay),
        ("isUGC", encOpt encOBool g.is_ugc)]

/-- Encoder of `MediaResultItem` under its wire aliases; the opaque
`image_data` blob is written back unchanged. -/
def encodeMediaResultItem (it : MediaResultItem) : Json :=
  .obj [("general", encodeMediaResultGeneral it.general),
        ("imagedata", it.image_data)]

/-- Encoder of `Response[T]`, parameterized by the payload encoder. -/
def encodeResponse (enc : α → Json) (r : Response α) : Json :=
  .obj [("metadata", encodeResponseMetadata r.metadata),
        ("result", encOpt enc r.result),
        ("paging", encOpt encodeResponsePaging r.paging)]

/-! ## Shape predicates characterizing when decoding succeeds -/

/-- Does a JSON value have the shape of an `int` field? -/
def intShape : Json → Bool
  | .num q => q.den == 1
  | _ => false

/-- Does a JSON value have the shape of a `str` field? -/
def strShape : Json → Bool
  | .str _ => true
  | _ => false

/-- Does a JSON value have the shape of a `float` field? -/
def floatShape : Json → Bool
  | .num _ => true
  | _ => false

/-- Does a JSON value fit an optional field of the given underlying shape? -/
def optShape (shape : Json → Bool) : Json → Bool
  | .null => true
  | v => shape v

/-- A required field is satisfied when one of its keys is present with the
right shape. -/
def reqKeyOk (fs : List (String × Json)) (keys : List String)
    (shape : Json → Bool) : Bool :=
  match lookupKeys fs keys with
  | none => false
  | some v => shape v

/-- An optional field is satisfied when absent, or present (possibly `null`)
with the right shape. -/
def optKeyOk (fs : List (String × Json)) (keys : List String)
    (shape : Json → Bool) : Bool :=
  match lookupKeys fs keys with
  | none => true
  | some v => optShape shape v

/-- The values on which `decodeResponseMetadata` succeeds: a JSON object
whose required fields `status` (int), `verb` (string) and `processing_time`
(float) are present with the right shape and whose optional fields, when
present, have the right shape. -/
def metadataWellFormed : Json → Bool
  | .obj fs =>
    reqKeyOk fs ["status"] intShape &&
    (optKeyOk fs ["apiversion", "api_version"] strShape &&
    (reqKeyOk fs ["verb"] strShape &&
    (reqKeyOk fs ["processingtime", "processing_time"] floatShape &&
    (optKeyOk fs ["calledwith", "called_with"] strShape &&
    (optKeyOk fs ["calledfor", "called_for"] strShape &&
    (optKeyOk fs ["fordomain", "for_domain"] intShape &&
    (optKeyOk fs ["fromstage", "from_stage"] intShape &&
    (optKeyOk fs ["notice"] strShape &&
    (optKeyOk fs ["errorhint", "error_hint"] strShape &&
    optKeyOk fs ["fromcache", "from_cache"] intShape)))))))))
  | _ => false

/-! ## Auxiliary observations used by the verification -/

/-- Did a decode succeed? -/
def isOk : Except DecodeError α → Bool
  | .ok _ => true
  | .error _ => false

/-- Does a character list contain two consecutive `'/'`? -/
def hasDoubleSlash : List Char → Bool
  | c1 :: c2 :: rest => (c1 == '/' && c2 == '/') || hasDoubleSlash (c2 :: rest)
  | _ => false

end Omniapy

namespace Omniapy

/-! # Verification -/

/-! ## Helper lemmas -/

theorem isOk_error (e : DecodeError) : isOk (α := α) (.error e) = false := rfl

theorem isOk_ok (a : α) : isOk (.ok a) = true := rfl

theorem error_bind (e : DecodeError) (f : α → Except DecodeError β) :
    ((Except.error e : Except DecodeError α) >>= f) = .error e := rfl

theorem ok_bind (a : α) (f : α → Except DecodeError β) :
    ((Except.ok a : Except DecodeError α) >>= f) = f a := rfl

theorem decInt_isOk (v : Json) : isOk (decInt v) = intShape v := by
  cases v <;> simp only [decInt, intShape, isOk_error]
  rename_i q
  by_cases h : q.den = 1 <;> simp [h, isOk]

theorem decStr_isOk (v : Json) : isOk (decStr v) = strShape v := by
  cases v <;> rfl

theorem decFloat_isOk (v : Json) : isOk (decFloat v) = floatShape v := by
  cases v <;> rfl

theorem isOk_map (f : α → β) (x : Except DecodeError α) :
    isOk (Except.map f x) = isOk x := by
  cases x <;> rfl

theorem decOpt_isOk (dec : Json → Except DecodeError α) (shape : Json → Bool)
    (h : ∀ v, isOk (dec v) = shape v) (v : Json) :
    isOk (decOpt dec v) = optShape shape v := by
  cases v
  case null => rfl
  all_goals (simp only [decOpt, optShape, isOk_map]; exact h _)

theorem isOk_reqField_bind (fs : List (String × Json)) (keys : List String)
    (dec : Json → Except DecodeError α) (shape : Json → Bool)
    (hdec : ∀ v, isOk (dec v) = shape v)
    (rest : α → Except DecodeError β) (b : Bool)
    (hrest : ∀ a, isOk (rest a) = b) :
    isOk (reqField fs keys dec >>= rest) = (reqKeyOk fs keys shape && b) := by
  unfold reqField reqKeyOk
  cases lookupKeys fs keys with
  | none => simp [error_bind, isOk_error]
  | some v =>
    dsimp only
    cases h : dec v with
    | error e =>
      have hs := hdec v
      rw [h] at hs
      rw [error_bind]
      simp [isOk_error, ← hs]
    | ok a =>
      have hs := hdec v
      rw [h] at hs
      rw [ok_bind]
      simp [isOk_ok, hrest a, ← hs]

theorem isOk_optField_bind (fs : List (String × Json)) (keys : List String)
    (dec : Json → Except DecodeError α) (shape : Json → Bool)
    (hdec : ∀ v, isOk (dec v) = shape v)
    (rest : Option α → Except DecodeError β) (b : Bool)
    (hrest : ∀ o, isOk (rest o) = b) :
    isOk (optField fs keys dec >>= rest) = (optKeyOk fs keys shape && b) := by
  unfold optField optKeyOk
  cases lookupKeys fs keys with
  | none => simp [ok_bind, hrest none]
  | some v =>
    dsimp only
    cases h : decOpt dec v with
    | error e =>
      have hs := decOpt_isOk dec shape hdec v
      rw [h] at hs
      rw [error_bind]
      simp [isOk_error, ← hs]
    | ok o =>
      have hs := decOpt_isOk dec shape hdec v
      rw [h] at hs
      rw [ok_bind]
      simp [isOk_ok, hrest o, ← hs]

theorem isOk_decodeResponseMetadata (j : Json) :
    isOk (decodeResponseMetadata j) = metadataWellFormed j := by
  cases j
  case obj fs =>
    simp only [decodeResponseMetadata, metadataWellFormed]
    refine isOk_reqField_bind _ _ _ _ decInt_isOk _ _ (fun a1 => ?_)
    refine isOk_optField_bind _ _ _ _ decStr_isOk _ _ (fun a2 => ?_)
    refine isOk_reqField_bind _ _ _ _ decStr_isOk _ _ (fun a3 => ?_)
    refine isOk_reqField_bind _ _ _ _ decFloat_isOk _ _ (fun a4 => ?_)
    refine isOk_optField_bind _ _ _ _ decStr_isOk _ _ (fun a5 => ?_)
    refine isOk_optField_bind _ _ _ _ decStr_isOk _ _ (fun a6 => ?_)
    refine isOk_optField_bind _ _ _ _ decInt_isOk _ _ (fun a7 => ?_)
    refine isOk_optField_bind _ _ _ _ decInt_isOk _ _ (fun a8 => ?_)
    refine isOk_optField_bind _ _ _ _ decStr_isOk _ _ (fun a9 => ?_)
    refine isOk_optField_bind _ _ _ _ decStr_isOk _ _ (fun a10 => ?_)
    conv_rhs => rw [← Bool.and_true (optKeyOk fs ["fromcache", "from_cache"] intShape)]
    exact isOk_optField_bind _ _ _ _ decInt_isOk _ _ (fun o => isOk_ok _)
  all_goals rfl

/-! ## Round-trip lemmas: decoding after encoding -/

theorem decInt_intCast (i : Int) : decInt (.num (i : Rat)) = .ok i := by
  simp [decInt, Rat.den_intCast, Rat.num_intCast]

theorem decOBool_enc (x : OBool) : decOBool (encOBool x) = .ok x := by
  cases x <;> rfl

theorem decOpt_enc_str (o : Option String) : decOpt decStr (encOpt Json.str o) = .ok o := by
  cases o <;> rfl

theorem decOpt_enc_int (o : Option Int) :
    decOpt decInt (encOpt (fun n : Int => Json.num (n : Rat)) o) = .ok o := by
  cases o with
  | none => rfl
  | some a => simp [encOpt, decOpt, decInt_intCast, Except.map]

theorem decOpt_enc_num (o : Option Rat) : decOpt decDatetime (encOpt Json.num o) = .ok o := by
  cases o <;> rfl

theorem decOpt_enc_obool (o : Option OBool) : decOpt decOBool (encOpt encOBool o) = .ok o := by
  cases o with
  | none => rfl
  | some a => cases a <;> rfl

theorem decOpt_encOpt (dec : Json → Except DecodeError α) (enc : α → Json)
    (hdec : ∀ a, dec (enc a) = .ok a) (hnn : ∀ a, enc a ≠ Json.null)
    (o : Option α) : decOpt dec (encOpt enc o) = .ok o := by
  cases o with
  | none => rfl
  | some a =>
    have hd := hdec a
    have hshape : decOpt dec (enc a) = (dec (enc a)).map some := by
      cases he : enc a
      case null => exact absurd he (hnn a)
      all_goals rfl
    show decOpt dec (enc a) = Except.ok (some a)
    rw [hshape, hd]
    rfl

theorem decode_encode_metadata (m : ResponseMetadata) :
    decodeResponseMetadata (encodeResponseMetadata m) = .ok m := by
  simp [encodeResponseMetadata, decodeResponseMetadata, reqField, optField, lookupKeys,
        List.lookup, decInt_intCast, decStr, decFloat, decOpt_enc_str, decOpt_enc_int,
        ok_bind]

theorem decode_encode_paging (p : ResponsePaging) :
    decodeResponsePaging (encodeResponsePaging p) = .ok p := by
  simp [encodeResponsePaging, decodeResponsePaging, reqField, lookupKeys,
        List.lookup, decInt_intCast, ok_bind]

theorem decode_encode_general (g : MediaResultGeneral) :
    decodeMediaResultGeneral (encodeMediaResultGeneral g) = .ok g := by
  simp [encodeMediaResultGeneral, decodeMediaResultGeneral, reqField, optField,
        lookupKeys, List.lookup, decInt_intCast, decStr, decDatetime, decOBool_enc,
        decOpt_enc_str, decOpt_enc_num, decOpt_enc_obool, ok_bind]

theorem decode_encode_item (it : MediaResultItem) :
    decodeMediaResultItem (encodeMediaResultItem it) = .ok it := by
  simp [encodeMediaResultItem, decodeMediaResultItem, reqField, lookupKeys,
        List.lookup, decode_encode_general, ok_bind]

theorem encodeResponsePaging_ne_null (p : ResponsePaging) :
    encodeResponsePaging p ≠ Json.null := by
  simp [encodeResponsePaging]

theorem encodeMediaResultItem_ne_null (it : MediaResultItem) :
    encodeMediaResultItem it ≠ Json.null := by
  simp [encodeMediaResultItem]

theorem decode_encode_response (dec : Json → Except DecodeError α) (enc : α → Json)
    (hdec : ∀ a, dec (enc a) = .ok a) (hnn : ∀ a, enc a ≠ Json.null)
    (r : Response α) :
    decodeResponse dec (encodeResponse enc r) = .ok r := by
  simp [encodeResponse, decodeResponse, reqField, optField, lookupKeys, List.lookup,
        decode_encode_metadata, decOpt_encOpt dec enc hdec hnn,
        decOpt_encOpt decodeResponsePaging encodeResponsePaging decode_encode_paging
          encodeResponsePaging_ne_null,
        ok_bind]

/-! ## Lemmas on slash stripping and joining -/

theorem hasDD_append (xs ys : List Char) :
    hasDoubleSlash (xs ++ ys) =
      (hasDoubleSlash xs || hasDoubleSlash ys ||
        (xs.getLast? == some '/' && ys.head? == some '/')) := by
  induction xs with
  | nil => simp [hasDoubleSlash]
  | cons c xs ih =>
    cases xs with
    | nil =>
      cases ys with
      | nil => simp [hasDoubleSlash]
      | cons d ys' => simp [hasDoubleSlash, Bool.or_comm]
    | cons c2 xs' =>
      rw [show (c :: c2 :: xs') ++ ys = c :: ((c2 :: xs') ++ ys) from rfl]
      rw [show hasDoubleSlash (c :: ((c2 :: xs') ++ ys))
            = ((c == '/' && c2 == '/') || hasDoubleSlash ((c2 :: xs') ++ ys)) from rfl]
      rw [ih]
      simp [hasDoubleSlash, List.getLast?_cons_cons, Bool.or_assoc]

theorem head?_dropWhile_not (p : Char → Bool) (l : List Char) (c : Char)
    (h : (l.dropWhile p).head? = some c) : p c = false := by
  induction l with
  | nil => simp [List.dropWhile] at h
  | cons x xs ih =>
    rw [List.dropWhile_cons] at h
    by_cases hp : p x
    · rw [if_pos hp] at h; exact ih h
    · rw [if_neg hp] at h
      simp only [List.head?_cons, Option.some.injEq] at h
      rw [← h]
      exact Bool.not_eq_true _ ▸ (by simpa using hp)

theorem stripSegment_last (s : String) :
    ((stripSegment s).data.getLast? == some '/') = false := by
  have hdata : (stripSegment s).data
      = ((s.data.dropWhile (· == '/')).reverse.dropWhile (· == '/')).reverse := rfl
  rw [hdata, List.getLast?_reverse]
  cases h : ((s.data.dropWhile (· == '/')).reverse.dropWhile (· == '/')).head? with
  | none => rfl
  | some c =>
    have := head?_dropWhile_not _ _ c h
    simp [this]

theorem stripSegment_head (s : String) :
    ((stripSegment s).data.head? == some '/') = false := by
  have hdata : (stripSegment s).data
      = ((s.data.dropWhile (· == '/')).reverse.dropWhile (· == '/')).reverse := rfl
  rw [hdata, List.head?_reverse]
  cases h : ((s.data.dropWhile (· == '/')).reverse.dropWhile (· == '/')).getLast? with
  | none => rfl
  | some c =>
    obtain ⟨t, ht⟩ :=
      List.dropWhile_suffix (l := (s.data.dropWhile (· == '/')).reverse) (· == '/')
    have hne : (s.data.dropWhile (· == '/')).reverse.dropWhile (· == '/') ≠ [] := by
      intro h0; rw [h0] at h; simp at h
    have hlast : ((s.data.dropWhile (· == '/')).reverse).getLast? = some c := by
      rw [← ht, List.getLast?_append_of_ne_nil _ hne]; exact h
    rw [List.getLast?_reverse] at hlast
    have := head?_dropWhile_not _ _ c hlast
    simp [this]

theorem pyJoin_no_double_slash (l : List String)
    (hne : ∀ s ∈ l, s ≠ "")
    (hh : ∀ s ∈ l, (s.data.head? == some '/') = false)
    (ht : ∀ s ∈ l, (s.data.getLast? == some '/') = false)
    (hdd : ∀ s ∈ l, hasDoubleSlash s.data = false) :
    hasDoubleSlash (pyJoin "/" l).data = false ∧
    ((pyJoin "/" l).data.head? == some '/') = false := by
  induction l with
  | nil => exact ⟨rfl, rfl⟩
  | cons x xs ih =>
    cases xs with
    | nil => exact ⟨hdd x (List.mem_cons_self x _), hh x (List.mem_cons_self x _)⟩
    | cons y rest =>
      have ih' := ih (fun s hs => hne s (List.mem_cons_of_mem _ hs))
        (fun s hs => hh s (List.mem_cons_of_mem _ hs))
        (fun s hs => ht s (List.mem_cons_of_mem _ hs))
        (fun s hs => hdd s (List.mem_cons_of_mem _ hs))
      have hdata : (pyJoin "/" (x :: y :: rest)).data
          = x.data ++ ('/' :: (pyJoin "/" (y :: rest)).data) := by
        show ((x ++ "/") ++ pyJoin "/" (y :: rest)).data = _
        rw [String.data_append, String.data_append, List.append_assoc]
        rfl
      constructor
      · rw [hdata, hasDD_append, hdd x (List.mem_cons_self x _),
            ht x (List.mem_cons_self x _)]
        cases hJ : (pyJoin "/" (y :: rest)).data with
        | nil => simp [hasDoubleSlash]
        | cons j js =>
          have h2 := ih'.2
          have h1 := ih'.1
          rw [hJ] at h1 h2
          simp at h2
          simp [hasDoubleSlash, h1, h2]
      · rw [hdata]
        cases hx : x.data with
        | nil =>
          exact absurd (String.ext (hx.trans rfl)) (hne x (List.mem_cons_self x _))
        | cons a as =>
          have := hh x (List.mem_cons_self x _)
          rw [hx] at this
          simpa using this

/-! ## The claims -/

set_option maxRecDepth 10000 in
/-- C1: for every operation, domain id and api secret, the request token
header is the lowercase hexadecimal MD5 digest of the separator-free
concatenation `operation ++ domain_id ++ api_secret` (in that order), and for
operation `byid`, domain id `12345` and secret `topsecret` it equals the
reference digest of `byid12345topsecret`. -/
theorem claim_C1_signature :
    (∀ operation domain_id api_secret session_id : String,
      request_header operation domain_id api_secret session_id =
        [(OMNIA_HEADER_X_REQUEST_CID, session_id),
         (OMNIA_HEADER_X_REQUEST_TOKEN,
          md5Hex (utf8Encode (operation ++ domain_id ++ api_secret)))]) ∧
    md5Hex (utf8Encode ("byid" ++ "12345" ++ "topsecret"))
      = "756cf1eca1a16b522b3247f4de8f6f0c" :=
  ⟨fun _ _ _ _ => rfl, by rfl⟩

/-- C2 counterexample: the claim says segment concatenation never produces
consecutive `/`, even when a segment is empty after stripping; but joining
the stripped segments `["a", "", "b"]` yields `"a//b"`, which contains a
doubled `/` produced exactly at the empty segment's position. -/
theorem claim_C2_counterexample :
    hasDoubleSlash (url_builder ["a", "", "b"]).data = true := by rfl

/-- C2 (amended): each segment is stripped of leading and trailing `/`, so no
joined segment begins or ends with `/`; if every stripped segment is
non-empty and internally free of doubled `/`, the joined output has no
doubled `/`; but a segment that is empty after stripping does produce
consecutive `/`, as in the management call with zero positional arguments. -/
theorem claim_C2_url_builder :
    (∀ s : String, ((stripSegment s).data.head? == some '/') = false ∧
       ((stripSegment s).data.getLast? == some '/') = false) ∧
    (∀ segments : List String,
      (∀ s ∈ segments,
        stripSegment s ≠ "" ∧ hasDoubleSlash (stripSegment s).data = false) →
      hasDoubleSlash (url_builder segments).data = false) ∧
    hasDoubleSlash (universal_call_url .MANAGEMENT "d1" .Video "fromurl" []).data
      = true := by
  refine ⟨fun s => ⟨stripSegment_head s, stripSegment_last s⟩, ?_, by rfl⟩
  intro segs h
  refine (pyJoin_no_double_slash (segs.map stripSegment) ?_ ?_ ?_ ?_).1
  · intro s hs
    obtain ⟨t, htm, rfl⟩ := List.mem_map.mp hs
    exact (h t htm).1
  · intro s hs
    obtain ⟨t, htm, rfl⟩ := List.mem_map.mp hs
    exact stripSegment_head t
  · intro s hs
    obtain ⟨t, htm, rfl⟩ := List.mem_map.mp hs
    exact stripSegment_last t
  · intro s hs
    obtain ⟨t, htm, rfl⟩ := List.mem_map.mp hs
    exact (h t htm).2

/-- C2 witness: the no-doubled-slash conclusion holds at the concrete segment
list `["ab", "c/d"]`, whose stripped segments are non-empty and free of
doubled slashes. -/
theorem claim_C2_url_builder_witness :
    (∀ s ∈ ["ab", "c/d"],
      stripSegment s ≠ "" ∧ hasDoubleSlash (stripSegment s).data = false) ∧
    hasDoubleSlash (url_builder ["ab", "c/d"]).data = false :=
  ⟨by decide, claim_C2_url_builder.2.1 ["ab", "c/d"] (by decide)⟩

/-- C3 counterexample: the claim lists `processing_time` among the optional
fields of `ResponseMetadata`, but the source declares it without a default,
so a metadata object carrying only `status` and `verb` fails to decode. -/
theorem claim_C3_counterexample :
    decodeResponseMetadata (.obj [("status", .num 200), ("verb", .str "GET")])
      = .error .missing := rfl

/-- C3 (amended): decoding `ResponseMetadata` succeeds exactly when the
required fields `status` (int), `verb` (string) and `processing_time` (float)
are present with the right shape and every optional field, when present, has
the right shape; a metadata object with the three required fields and no
optional field decodes (each optional becoming `none`), one missing `status`
fails, and an envelope whose metadata is invalid fails. -/
theorem claim_C3_metadata_decode :
    (∀ j : Json, isOk (decodeResponseMetadata j) = metadataWellFormed j) ∧
    decodeResponseMetadata (.obj [("status", .num 200), ("verb", .str "GET"),
        ("processingtime", .num 1)])
      = .ok ⟨200, none, "GET", 1, none, none, none, none, none, none, none⟩ ∧
    decodeResponseMetadata (.obj [("verb", .str "GET"), ("processingtime", .num 1)])
      = .error .missing ∧
    decodeResponse (fun v => .ok v)
        (.obj [("metadata", .obj [("verb", .str "GET"), ("processingtime", .num 1)])])
      = .error .missing :=
  ⟨isOk_decodeResponseMetadata, by rfl, rfl, rfl⟩

/-- C4: every media-category call builds its URL as
base `/` domain `/` stream type `/` operation `/` args (each segment
stripped of boundary slashes, the args being the slash-join of the
positional arguments); in particular `byid` on domain `d1`, stream type
video, item id 42 yields `.../d1/videos/byid/42`. -/
theorem claim_C4_media_url :
    (∀ (domain_id : String) (stream_type : StreamType) (operation : String)
       (args : List String),
      universal_call_url .MEDIA domain_id stream_type operation args =
        pyJoin "/" ["https://api.nexx.cloud/v3.1", stripSegment domain_id,
          stream_type.value, stripSegment operation,
          stripSegment (pyJoin "/" args)]) ∧
    universal_call_url .MEDIA "d1" .Video "byid" ["42"]
      = "https://api.nexx.cloud/v3.1/d1/videos/byid/42" := by
  constructor
  · intro dom st op args
    cases st <;> rfl
  · rfl

/-- C5: every management-category call builds its URL as
base `/` domain `/manage/` stream type `/` args `/` operation, the operation
coming after the args; in particular `update` on domain `d1`, stream type
audio, item id 7 yields `.../d1/manage/audio/7/update`. -/
theorem claim_C5_management_url :
    (∀ (domain_id : String) (stream_type : StreamType) (operation : String)
       (args : List String),
      universal_call_url .MANAGEMENT domain_id stream_type operation args =
        pyJoin "/" ["https://api.nexx.cloud/v3.1", stripSegment domain_id, "manage",
          stream_type.value, stripSegment (pyJoin "/" args), stripSegment operation]) ∧
    universal_call_url .MANAGEMENT "d1" .Audio "update" ["7"]
      = "https://api.nexx.cloud/v3.1/d1/manage/audio/7/update" := by
  constructor
  · intro dom st op args
    cases st <;> rfl
  · rfl

/-- C6 counterexample: the claim says the body contains `filename` if and
only if the caller supplied one, but the source guards the assignment with
Python truthiness (`if filename:`), so a supplied empty-string filename is
dropped from the body. -/
theorem claim_C6_counterexample :
    (upload_by_url_body "http://example.com/v.mp4" true (some "")).lookup "filename"
      = none := rfl

/-- C6 (amended): the upload-by-url body always contains `url` and
`useQueue`, with `useQueue` the integer 1 or 0 mirroring the boolean (never a
native boolean value), and contains `filename` exactly when the caller
supplied a non-empty filename — `None` and the empty string both omit the key
entirely. -/
theorem claim_C6_upload_body :
    ∀ (url : String) (use_queue : Bool) (filename : Option String),
      (upload_by_url_body url use_queue filename).lookup "url" = some (.str url) ∧
      (upload_by_url_body url use_queue filename).lookup "useQueue"
        = some (.int (if use_queue then 1 else 0)) ∧
      (upload_by_url_body url use_queue filename).lookup "filename"
        = (match filename with
           | some f => if f = "" then none else some (.str f)
           | none => none) := by
  intro url uq fn
  cases fn with
  | none => exact ⟨rfl, rfl, rfl⟩
  | some f =>
    by_cases hf : f = "" <;>
      simp [upload_by_url_body, hf, List.lookup]

/-- C7: decoding an encoded `Response MediaResultItem` recovers every field
value exactly (the alias mapping applied on both sides), and decoding an
envelope whose optional fields are omitted yields `none` for each omitted
optional field — in particular the optional tri-state booleans come back as
`none`, not as a `FALSE` placeholder. -/
theorem claim_C7_round_trip :
    (∀ r : Response MediaResultItem,
      decodeResponse decodeMediaResultItem (encodeResponse encodeMediaResultItem r)
        = .ok r) ∧
    decodeResponse decodeMediaResultItem
        (.obj [("metadata", .obj [("status", .num 200), ("verb", .str "GET"),
                  ("processingtime", .num 1)]),
               ("result", .obj [("general", .obj [("ID", .num 1), ("GID", .num 2),
                  ("hash", .str "h"), ("title", .str "t"), ("subtitle", .str "s"),
                  ("contentModerationAspects", .str "c"), ("created", .num 0),
                  ("isPay", .num 0)]),
                 ("imagedata", .null)])])
      = .ok ⟨⟨200, none, "GET", 1, none, none, none, none, none, none, none⟩,
             some ⟨⟨1, 2, "h", "t", "s", none, none, "c", none, 0, none, none,
                    none, none, .FALSE, none⟩, .null⟩,
             none⟩ :=
  ⟨fun r => decode_encode_response decodeMediaResultItem encodeMediaResultItem
      decode_encode_item encodeMediaResultItem_ne_null r,
   by rfl⟩

/-- C8: decoding the editable-attributes object
with key `title`, type `string` and `allowedInUGC` 1 yields a mapping whose
`title` entry has `allowed_in_ugc` converting to the native boolean `true`;
the `Bool` enumeration converts 0 to `false` and 1 to `true`. -/
theorem claim_C8_editable_attributes :
    decodeEditableAttributesResponse
        (.obj [("title", .obj [("type", .str "string"), ("allowedInUGC", .num 1)])])
      = .ok [("title", ⟨"string", none, none, none, .TRUE⟩)] ∧
    OBool.FALSE.to_bool = false ∧ OBool.TRUE.to_bool = true ∧
    (decodeEditableAttributesResponse
        (.obj [("title", .obj [("type", .str "string"), ("allowedInUGC", .num 1)])])).map
      (fun l => (l.lookup "title").map (fun p => p.allowed_in_ugc.to_bool))
      = .ok (some true) :=
  ⟨rfl, rfl, rfl, rfl⟩

/-- C9: the computed header pair is a deterministic function of operation,
domain id, api secret and session id (two runs on identical inputs agree);
the session/correlation header carries the session id unchanged, and the
token header does not depend on the session id. -/
theorem claim_C9_deterministic_header :
    ∀ operation domain_id api_secret session_id session_id' : String,
      (request_header operation domain_id api_secret session_id =
        request_header operation domain_id api_secret session_id) ∧
      (request_header operation domain_id api_secret session_id).lookup
          OMNIA_HEADER_X_REQUEST_CID = some session_id ∧
      (request_header operation domain_id api_secret session_id).lookup
          OMNIA_HEADER_X_REQUEST_TOKEN =
        (request_header operation domain_id api_secret session_id').lookup
          OMNIA_HEADER_X_REQUEST_TOKEN :=
  fun _ _ _ _ _ => ⟨rfl, rfl, rfl⟩

/-- C10: a call with api type `DOMAIN` matches no URL-construction branch in
`Omnia.__universal_call`, so the URL used for the request is the initial
empty string, with no error raised. -/
theorem claim_C10_domain_empty_url :
    ∀ (domain_id : String) (stream_type : StreamType) (operation : String)
      (args : List String),
      universal_call_url .DOMAIN domain_id stream_type operation args = "" :=
  fun _ _ _ _ => rfl

end Omniapy
